import Mathlib

/-!
Shallow embedding of the dotenv-parser library (src/index.ts and
src/sanity.ts) together with the ECMAScript string and number primitives
those two files rely on: String.prototype.trim, String.prototype.toLowerCase,
String.prototype.split, Array.prototype.map, Array.prototype.join and the
Number() string-to-number conversion.

Conventions of the embedding:
- a possibly absent string input (string | undefined) is an Option String,
  with none standing for undefined;
- an optional fallback parameter (T | null | undefined) is an
  Option (Option T): none means the caller supplied no fallback, some none is
  an explicit null fallback, some (some x) a proper value;
- a thrown RangeError is the error branch of Except String carrying exactly
  the message string the source constructs (a RangeError exposes nothing but
  its message to the catcher);
- JavaScript numbers are idealised as exact rationals extended with the two
  infinities; NaN is represented as the none of an Option JsNum, matching the
  way the source only ever inspects NaN-ness through Number.isNaN.
-/

/-- The characters the ECMAScript specification counts as WhiteSpace or
LineTerminator: these are exactly the characters String.prototype.trim
removes and StringToNumber ignores around a numeric literal. -/
def jsWhitespaceChar (c : Char) : Bool :=
  c = ' ' || c = '\t' || c = '\n' || c = '\r' || c = '\x0b' || c = '\x0c' ||
  c = ' ' || c = ' ' || (' ' ≤ c && c ≤ ' ') ||
  c = ' ' || c = ' ' || c = ' ' || c = ' ' ||
  c = '　' || c = '﻿'

/-- Drop leading and trailing JS whitespace from a character list. -/
def jsTrimList (l : List Char) : List Char :=
  ((l.dropWhile jsWhitespaceChar).reverse.dropWhile jsWhitespaceChar).reverse

/-- Model of String.prototype.trim. -/
def jsTrim (s : String) : String := ⟨jsTrimList s.data⟩

/-- ASCII case folding of one character. String.prototype.toLowerCase does
full Unicode folding, but the sources only ever compare the folded text with
the all-ASCII tokens "true", "1" and "null", on which the two agree. -/
def asciiLowerChar (c : Char) : Char :=
  if 'A' ≤ c ∧ c ≤ 'Z' then Char.ofNat (c.toNat + 32) else c

/-- Model of String.prototype.toLowerCase. -/
def jsToLowerCase (s : String) : String := ⟨s.data.map asciiLowerChar⟩

/-- One splitting pass of String.prototype.split with a non-empty literal
separator: scan left to right, cut at each separator occurrence. The fuel
argument is instantiated with the length of the scanned list, which the scan
never exceeds because every recursive call consumes at least one character;
it only makes the recursion structural. -/
def splitGo : Nat → List Char → List Char → List Char → List (List Char)
  | _, _, [], acc => [acc.reverse]
  | 0, _, l, acc => [acc.reverse ++ l]
  | fuel+1, sep, c :: rest, acc =>
    if sep.isPrefixOf (c :: rest) then
      acc.reverse :: splitGo fuel sep (List.drop (sep.length - 1) rest) []
    else
      splitGo fuel sep rest (c :: acc)

/-- Model of String.prototype.split with a literal (non-regex) string
separator: the empty separator splits into single characters, otherwise the
string is cut at every occurrence of the separator, keeping empty pieces. -/
def jsSplit (s sep : String) : List String :=
  if sep.data = [] then s.data.map (fun c => ⟨[c]⟩)
  else (splitGo s.data.length sep.data s.data []).map (fun l => ⟨l⟩)

/-- A JavaScript number that is not NaN, idealised as an exact rational or
one of the two infinities (double rounding and negative zero are abstracted
away; none of the library logic depends on them). -/
inductive JsNum where
  | finite : ℚ → JsNum
  | posInf : JsNum
  | negInf : JsNum
deriving DecidableEq

/-- Value of a digit list read in base ten. -/
def digitsToNat (l : List Char) : Nat :=
  l.foldl (fun a c => 10 * a + (c.toNat - 48)) 0

/-- Hexadecimal digit value. -/
def hexDigitVal (c : Char) : Option Nat :=
  if c.isDigit then some (c.toNat - 48)
  else if 'a' ≤ c ∧ c ≤ 'f' then some (c.toNat - 87)
  else if 'A' ≤ c ∧ c ≤ 'F' then some (c.toNat - 55)
  else none

/-- Octal digit value. -/
def octDigitVal (c : Char) : Option Nat :=
  if '0' ≤ c ∧ c ≤ '7' then some (c.toNat - 48) else none

/-- Binary digit value. -/
def binDigitVal (c : Char) : Option Nat :=
  if c = '0' ∨ c = '1' then some (c.toNat - 48) else none

/-- Read a non-empty run of digits of the given radix; any other character,
or an empty run, is a parse failure. Models the HexIntegerLiteral,
OctalIntegerLiteral and BinaryIntegerLiteral productions. -/
def parseRadixNat (radix : Nat) (digit : Char → Option Nat) (l : List Char) : Option Nat :=
  if l.isEmpty then none
  else
    l.foldl
      (fun acc c =>
        match acc, digit c with
        | some a, some d => some (radix * a + d)
        | _, _ => none)
      (some 0)

/-- Signed decimal digits of an exponent part, which must run to the end of
the literal. -/
def parseSignedExpDigits (l : List Char) : Option Int :=
  match l with
  | '+' :: r => if r ≠ [] ∧ r.all Char.isDigit then some (digitsToNat r : Int) else none
  | '-' :: r => if r ≠ [] ∧ r.all Char.isDigit then some (-(digitsToNat r : Int)) else none
  | r => if r ≠ [] ∧ r.all Char.isDigit then some (digitsToNat r : Int) else none

/-- Optional ExponentPart at the end of a decimal literal: empty rest means
exponent zero, otherwise an e or E followed by signed digits. -/
def parseExponentRest (l : List Char) : Option Int :=
  match l with
  | [] => some 0
  | 'e' :: r => parseSignedExpDigits r
  | 'E' :: r => parseSignedExpDigits r
  | _ => none

/-- Exact rational value of the decimal literal with integer digits ipart,
fraction digits fpart and decimal exponent e, computed with a single
normalising mkRat so that concrete values reduce in the kernel. -/
def decValue (ipart fpart : List Char) (e : Int) : ℚ :=
  mkRat (((digitsToNat ipart * 10 ^ fpart.length + digitsToNat fpart : Nat) : Int) * 10 ^ e.toNat)
        (10 ^ fpart.length * 10 ^ (-e).toNat)

/-- StrUnsignedDecimalLiteral without the Infinity alternative:
DecimalDigits [. DecimalDigits] [ExponentPart] or . DecimalDigits
[ExponentPart]; anything else (in particular the empty list) is NaN. -/
def parseDecimalLiteral (r : List Char) : Option ℚ :=
  let ipart := r.takeWhile Char.isDigit
  let r1 := r.dropWhile Char.isDigit
  match r1 with
  | '.' :: r2 =>
    let fpart := r2.takeWhile Char.isDigit
    let r3 := r2.dropWhile Char.isDigit
    if ipart.isEmpty && fpart.isEmpty then none
    else (parseExponentRest r3).map (fun e => decValue ipart fpart e)
  | _ =>
    if ipart.isEmpty then none
    else (parseExponentRest r1).map (fun e => decValue ipart [] e)

/-- StrUnsignedDecimalLiteral: the token Infinity or a decimal literal. -/
def strUnsignedDecimal (r : List Char) : Option JsNum :=
  if r = "Infinity".data then some JsNum.posInf
  else (parseDecimalLiteral r).map JsNum.finite

/-- Negation of a non-NaN JavaScript number. -/
def jsNegate : JsNum → JsNum
  | JsNum.finite q => JsNum.finite (-q)
  | JsNum.posInf => JsNum.negInf
  | JsNum.negInf => JsNum.posInf

/-- StrDecimalLiteral: an optional sign in front of an unsigned literal. -/
def strSignedDecimal (t : List Char) : Option JsNum :=
  match t with
  | '+' :: r => strUnsignedDecimal r
  | '-' :: r => (strUnsignedDecimal r).map jsNegate
  | r => strUnsignedDecimal r

/-- StringToNumber on an already trimmed, non-empty literal: a 0x/0X, 0o/0O
or 0b/0B radix literal (no sign allowed), otherwise a signed decimal. -/
def strToNumberTrimmed (t : List Char) : Option JsNum :=
  match t with
  | '0' :: c :: rest =>
    if c = 'x' ∨ c = 'X' then (parseRadixNat 16 hexDigitVal rest).map (fun n => JsNum.finite (mkRat n 1))
    else if c = 'o' ∨ c = 'O' then (parseRadixNat 8 octDigitVal rest).map (fun n => JsNum.finite (mkRat n 1))
    else if c = 'b' ∨ c = 'B' then (parseRadixNat 2 binDigitVal rest).map (fun n => JsNum.finite (mkRat n 1))
    else strSignedDecimal ('0' :: c :: rest)
  | t => strSignedDecimal t

/-- ECMAScript StringToNumber on a character list: surrounding whitespace is
ignored and an empty or whitespace-only literal converts to zero; none is
NaN. -/
def strToNumberList (l : List Char) : Option JsNum :=
  match jsTrimList l with
  | [] => some (JsNum.finite 0)
  | t => strToNumberTrimmed t

/-- Model of Number(s) for a string argument. -/
def strToNumber (s : String) : Option JsNum := strToNumberList s.data

/-- Model of Number(v) for a string | undefined argument:
Number(undefined) is NaN. -/
def jsNumberOf : Option String → Option JsNum
  | none => none
  | some s => strToNumber s

/-- Model of Array.prototype.map over a callback that may throw: elements
are processed left to right and the first thrown error aborts the whole
call, producing no partial array. -/
def mapExcept {α β : Type} (f : α → Except String β) : List α → Except String (List β)
  | [] => Except.ok []
  | a :: l =>
    match f a with
    | Except.error e => Except.error e
    | Except.ok b =>
      match mapExcept f l with
      | Except.error e => Except.error e
      | Except.ok bs => Except.ok (b :: bs)

/-- parseBoolean, src/index.ts lines 15-22: absent input stays at the
default false, a present string is lowercased, trimmed and tested for
membership in the truthy tokens. -/
def parseBoolean (value2Parse : Option String) : Bool :=
  match value2Parse with
  | some s => (["true", "1"] : List String).contains (jsTrim (jsToLowerCase s))
  | none => false

/-- parseString, src/index.ts lines 44-56: a present string is trimmed; an
absent one yields the fallback if one was supplied (an explicit null
fallback included) and otherwise throws a RangeError. -/
def parseString (value2Parse : Option String) (fallbackValue : Option (Option String)) :
    Except String (Option String) :=
  match value2Parse with
  | some s => Except.ok (some (jsTrim s))
  | none =>
    match fallbackValue with
    | none => Except.error "undefined input without a fallback"
    | some fb => Except.ok fb

/-- parseNumber, src/index.ts lines 78-89: the input is converted with
Number(); a NaN result yields the fallback if one was supplied (an explicit
null fallback included) and otherwise throws a RangeError. -/
def parseNumber (value2Parse : Option String) (fallbackValue : Option (Option JsNum)) :
    Except String (Option JsNum) :=
  match jsNumberOf value2Parse with
  | some n => Except.ok (some n)
  | none =>
    match fallbackValue with
    | none => Except.error "undefined input without a fallback"
    | some fb => Except.ok fb

/-- Options_ParseArray, src/index.ts lines 137-142: both fields optional,
none standing for a field the caller did not supply. -/
structure Options_ParseArray where
  delimiter : Option String
  parseNumber : Option Bool
deriving DecidableEq

/-- The options of parseArray after defaulting: both fields present. -/
structure ResolvedOptions_ParseArray where
  delimiter : String
  parseNumber : Bool
deriving DecidableEq

/-- _defaultOptionsParseArray, src/index.ts lines 144-147. -/
def _defaultOptionsParseArray : ResolvedOptions_ParseArray :=
  ⟨",", false⟩

/-- The spread expression of src/index.ts line 116: defaults first, then
each field the caller supplied overrides the corresponding default; an
absent options object leaves every default in place. -/
def overrideParseArrayOptions : Option Options_ParseArray → ResolvedOptions_ParseArray
  | none => _defaultOptionsParseArray
  | some o =>
    ⟨o.delimiter.getD _defaultOptionsParseArray.delimiter,
     o.parseNumber.getD _defaultOptionsParseArray.parseNumber⟩

/-- An element of the number[] | string[] result of parseArray, transporting
the respective per-element parser result unchanged. -/
inductive ArrayElem where
  | str : Option String → ArrayElem
  | num : Option JsNum → ArrayElem
deriving DecidableEq

/-- parseArray, src/index.ts lines 114-131: absent input yields the default
empty array; a present one is split on the delimiter and every piece is fed
to parseNumber or parseString with no fallback, a throwing element aborting
the whole map. -/
def parseArray (value2Parse : Option String) (options : Option Options_ParseArray) :
    Except String (List ArrayElem) :=
  let overriddenOptions := overrideParseArrayOptions options
  match value2Parse with
  | none => Except.ok []
  | some s =>
    if overriddenOptions.parseNumber then
      (mapExcept (fun arrayElem => parseNumber (some arrayElem) none)
        (jsSplit s overriddenOptions.delimiter)).map (List.map ArrayElem.num)
    else
      (mapExcept (fun arrayElem => parseString (some arrayElem) none)
        (jsSplit s overriddenOptions.delimiter)).map (List.map ArrayElem.str)

/-- Options_ParseNull, src/index.ts lines 193-196. -/
structure Options_ParseNull where
  allowUndefined : Option Bool
deriving DecidableEq

/-- _defaultOptionsParseNull, src/index.ts lines 198-200. -/
def _defaultOptionsParseNull : Bool := false

/-- The spread expression of src/index.ts line 173 restricted to the single
allowUndefined field. -/
def overrideParseNullOptions : Option Options_ParseNull → Bool
  | none => _defaultOptionsParseNull
  | some o => o.allowUndefined.getD _defaultOptionsParseNull

/-- parseNull, src/index.ts lines 171-187: a present string is lowercased
and trimmed and must equal the null token, an absent input is allowed only
under the allowUndefined option; on success the function returns null,
modelled as the unit value. -/
def parseNull (value2Parse : Option String) (options : Option Options_ParseNull) :
    Except String Unit :=
  let allowUndefined := overrideParseNullOptions options
  match value2Parse with
  | some s =>
    if jsTrim (jsToLowerCase s) ≠ "null" then Except.error "value cannot be parsed into null"
    else Except.ok ()
  | none =>
    if !allowUndefined then Except.error "undefined value is not allowed to be parsed into null"
    else Except.ok ()

/-- mandatoryVariables, src/sanity.ts lines 6-11: the externally supplied
process.env is abstracted as the key-presence predicate env; the names of
required absent from env are collected in order and a non-empty collection
throws a RangeError whose message embeds the names joined with a comma and
a space. -/
def mandatoryVariables (required : List String) (env : String → Bool) : Except String Unit :=
  let missingRequiredEnvVars := required.filter (fun v => !(env v))
  if missingRequiredEnvVars.length ≠ 0 then
    Except.error ("missing required env variables [" ++
      String.intercalate ", " missingRequiredEnvVars ++ "]")
  else
    Except.ok ()

/-- Trimming a list in which every character is JS whitespace leaves
nothing. -/
theorem jsTrimList_eq_nil_of_all (l : List Char) (h : l.all jsWhitespaceChar) :
    jsTrimList l = [] := by
  have h1 : l.dropWhile jsWhitespaceChar = [] := by
    rw [List.dropWhile_eq_nil_iff]
    intro x hx
    exact List.all_eq_true.mp h x hx
  simp [jsTrimList, h1]

/-- A throw-free callback maps to the full result list. -/
theorem mapExcept_ok {α β : Type} (f : α → Except String β) (g : α → β)
    (hf : ∀ a, f a = Except.ok (g a)) :
    ∀ l : List α, mapExcept f l = Except.ok (l.map g) := by
  intro l
  induction l with
  | nil => rfl
  | cons a l ih => simp [mapExcept, hf a, ih]

/-- If the callback can only throw one fixed error and some element makes it
throw, the whole map throws that error and yields no list. -/
theorem mapExcept_error {α β : Type} (f : α → Except String β) (c : String)
    (hf : ∀ a, f a = Except.error c ∨ ∃ b, f a = Except.ok b) :
    ∀ l : List α, (∃ a ∈ l, f a = Except.error c) →
      mapExcept f l = Except.error c := by
  intro l
  induction l with
  | nil =>
    rintro ⟨a, ha, -⟩
    exact absurd ha (List.not_mem_nil a)
  | cons a l ih =>
    rintro ⟨x, hx, hfx⟩
    rcases List.mem_cons.mp hx with rfl | hxl
    · simp [mapExcept, hfx]
    · rcases hf a with ha | ⟨b, hb⟩
      · simp [mapExcept, ha]
      · simp [mapExcept, hb, ih ⟨x, hxl, hfx⟩]

/-- C1 counterexample: on the empty string parseNumber does not signal the
UnparsableNumber failure when no fallback is supplied, nor does it return a
supplied fallback; in both cases it succeeds with the number 0, because the
ECMAScript Number conversion maps the empty string to 0, not NaN. -/
theorem c1_parseNumber_empty_counterexample :
    parseNumber (some "") none = Except.ok (some (JsNum.finite 0)) ∧
    parseNumber (some "") (some (some (JsNum.finite 7))) = Except.ok (some (JsNum.finite 0)) :=
  ⟨rfl, rfl⟩

/-- C1 (amended): for every empty or whitespace-only input string and any
fallback supplied or not, parseNumber succeeds with the number 0 without
consulting the fallback: the empty string does parse to zero. -/
theorem c1_parseNumber_whitespace_is_zero (s : String) (fb : Option (Option JsNum))
    (h : s.data.all jsWhitespaceChar) :
    parseNumber (some s) fb = Except.ok (some (JsNum.finite 0)) := by
  have h0 : strToNumberList s.data = some (JsNum.finite 0) := by
    unfold strToNumberList
    rw [jsTrimList_eq_nil_of_all s.data h]
  simp [parseNumber, jsNumberOf, strToNumber, h0]

/-- Closed instance of the amended C1 theorem on a whitespace-only string. -/
theorem c1_parseNumber_whitespace_is_zero_witness :
    parseNumber (some " \t ") none = Except.ok (some (JsNum.finite 0)) :=
  c1_parseNumber_whitespace_is_zero " \t " none (by decide)

/-- C2 counterexample: the input "1,,3" contains an empty element, yet with
the parseNumber option set parseArray does not abort: the empty element
converts to 0 and the call succeeds with the sequence 1, 0, 3. -/
theorem c2_parseArray_empty_element_counterexample :
    parseArray (some "1,,3") (some ⟨none, some true⟩) =
      Except.ok [ArrayElem.num (some (JsNum.finite 1)), ArrayElem.num (some (JsNum.finite 0)),
        ArrayElem.num (some (JsNum.finite 3))] := rfl

/-- C2 (amended): with the parseNumber option resolved to true, a present
input one of whose delimiter-split elements does not convert to a number
(Number yields NaN, which an empty element does not) makes parseArray
propagate the element-level failure of the fallback-less per-element
parseNumber call and abort the whole call, producing no partial sequence. -/
theorem c2_parseArray_nan_element_aborts (s : String) (opts : Option Options_ParseArray)
    (hp : (overrideParseArrayOptions opts).parseNumber = true)
    (h : ∃ e ∈ jsSplit s (overrideParseArrayOptions opts).delimiter, strToNumber e = none) :
    parseArray (some s) opts = Except.error "undefined input without a fallback" := by
  have hf : ∀ e : String,
      parseNumber (some e) none = Except.error "undefined input without a fallback" ∨
      ∃ b, parseNumber (some e) none = Except.ok b := by
    intro e
    cases hc : strToNumber e with
    | none => left; simp [parseNumber, jsNumberOf, hc]
    | some n => right; exact ⟨some n, by simp [parseNumber, jsNumberOf, hc]⟩
  obtain ⟨e, he, hne⟩ := h
  have he2 : parseNumber (some e) none = Except.error "undefined input without a fallback" := by
    simp [parseNumber, jsNumberOf, hne]
  have hmap := mapExcept_error (fun arrayElem => parseNumber (some arrayElem) none) _ hf
    (jsSplit s (overrideParseArrayOptions opts).delimiter) ⟨e, he, he2⟩
  simp [parseArray, hp, hmap, Except.map]

/-- Closed instance of the amended C2 theorem: an unparsable element aborts
the whole parseArray call. -/
theorem c2_parseArray_nan_element_aborts_witness :
    parseArray (some "1,a,3") (some ⟨none, some true⟩) =
      Except.error "undefined input without a fallback" :=
  c2_parseArray_nan_element_aborts "1,a,3" (some ⟨none, some true⟩) rfl
    ⟨"a", by decide, by decide⟩

/-- C3 counterexample: the signaled failure does not carry the list of
missing names in a form available to callers, only the joined rendering
inside the message: two runs whose missing-name lists differ produce the
very same failure value, so no caller can recover the list from it. -/
theorem c3_mandatoryVariables_list_only_joined_counterexample :
    mandatoryVariables ["a, b"] (fun _ => false) =
      mandatoryVariables ["a", "b"] (fun _ => false) ∧
    (["a, b"] : List String) ≠ ["a", "b"] :=
  ⟨rfl, by decide⟩

/-- C3 (amended): mandatoryVariables computes the absent names preserving
the original relative order of the required list (the missing list is a
sublist of it); if that subset is non-empty it signals a failure whose
message embeds the missing names joined with a comma and a space (the list
itself is not carried on the failure), and if the subset is empty it
completes with no observable effect. -/
theorem c3_mandatoryVariables_spec (required : List String) (env : String → Bool) :
    ((required.filter (fun v => !(env v))) = [] →
      mandatoryVariables required env = Except.ok ()) ∧
    ((required.filter (fun v => !(env v))) ≠ [] →
      mandatoryVariables required env =
        Except.error ("missing required env variables [" ++
          String.intercalate ", " (required.filter (fun v => !(env v))) ++ "]")) ∧
    (required.filter (fun v => !(env v))).Sublist required := by
  refine ⟨?_, ?_, List.filter_sublist required⟩
  · intro h
    simp [mandatoryVariables, h]
  · intro h
    have hl : (required.filter (fun v => !(env v))).length ≠ 0 := by
      simpa [List.length_eq_zero] using h
    simp [mandatoryVariables, hl]

/-- Closed instance of the amended C3 theorem on both branches. -/
theorem c3_mandatoryVariables_spec_witness :
    mandatoryVariables ["A", "B"] (fun v => v == "A") =
      Except.error "missing required env variables [B]" ∧
    mandatoryVariables ["A"] (fun v => v == "A") = Except.ok () := by
  constructor
  · rw [(c3_mandatoryVariables_spec ["A", "B"] (fun v => v == "A")).2.1 (by decide)]
    rfl
  · exact (c3_mandatoryVariables_spec ["A"] (fun v => v == "A")).1 (by decide)

/-- C4: a present string is returned trimmed whatever the fallback; an
absent input returns a supplied fallback as-is, an explicit null fallback
included, and signals the MissingWithoutFallback failure when no fallback
was supplied. -/
theorem c4_parseString_spec :
    (∀ (s : String) (fb : Option (Option String)),
      parseString (some s) fb = Except.ok (some (jsTrim s))) ∧
    (∀ fb : Option String, parseString none (some fb) = Except.ok fb) ∧
    parseString none none = Except.error "undefined input without a fallback" :=
  ⟨fun _ _ => rfl, fun _ => rfl, rfl⟩

/-- C5: an input whose Number conversion succeeds is returned as that
numeric value without consulting the fallback, and an input whose
conversion yields NaN returns the supplied fallback as-is, an explicit null
fallback included. -/
theorem c5_parseNumber_spec :
    (∀ (s : String) (n : JsNum) (fb : Option (Option JsNum)),
      strToNumber s = some n → parseNumber (some s) fb = Except.ok (some n)) ∧
    (∀ (s : String) (fb : Option JsNum),
      strToNumber s = none → parseNumber (some s) (some fb) = Except.ok fb) := by
  constructor
  · intro s n fb h
    simp [parseNumber, jsNumberOf, h]
  · intro s fb h
    simp [parseNumber, jsNumberOf, h]

/-- Closed instance of the C5 theorem: a parsed value ignores the fallback
and an unparsable input returns the explicit null fallback. -/
theorem c5_parseNumber_spec_witness :
    parseNumber (some "42") (some (some (JsNum.finite 7))) =
      Except.ok (some (JsNum.finite 42)) ∧
    parseNumber (some "abc") (some none) = Except.ok none :=
  ⟨c5_parseNumber_spec.1 "42" (JsNum.finite 42) (some (some (JsNum.finite 7))) (by decide),
   c5_parseNumber_spec.2 "abc" none (by decide)⟩

/-- C6: a present string is lowercased and trimmed and yields the null
marker exactly when the result is the null token, the UnparsableNull
failure otherwise; an absent input yields the null marker exactly when the
resolved allowUndefined option is true, the AbsentNullDisallowed failure
otherwise. -/
theorem c6_parseNull_spec :
    (∀ (s : String) (opts : Option Options_ParseNull),
      parseNull (some s) opts =
        if jsTrim (jsToLowerCase s) = "null" then Except.ok ()
        else Except.error "value cannot be parsed into null") ∧
    (∀ opts : Option Options_ParseNull,
      parseNull none opts =
        if overrideParseNullOptions opts then Except.ok ()
        else Except.error "undefined value is not allowed to be parsed into null") := by
  constructor
  · intro s opts
    by_cases h : jsTrim (jsToLowerCase s) = "null" <;> simp [parseNull, h]
  · intro opts
    cases h : overrideParseNullOptions opts <;> simp [parseNull, h]

/-- C7: an absent input yields the empty sequence with no error, for every
options record. -/
theorem c7_parseArray_absent (opts : Option Options_ParseArray) :
    parseArray none opts = Except.ok [] := rfl

/-- C8: each option field not supplied to parseArray takes its documented
default and each supplied field overrides independently: the resolved
options are the field-wise defaulting of the supplied record, and parseArray
behaves identically on a record with a field left out and on the same
record with that field set to its default. -/
theorem c8_parseArray_option_defaults :
    overrideParseArrayOptions none = _defaultOptionsParseArray ∧
    (∀ o : Options_ParseArray,
      overrideParseArrayOptions (some o) =
        ⟨o.delimiter.getD _defaultOptionsParseArray.delimiter,
         o.parseNumber.getD _defaultOptionsParseArray.parseNumber⟩) ∧
    (∀ (v : Option String) (d : String),
      parseArray v (some ⟨some d, none⟩) = parseArray v (some ⟨some d, some false⟩)) ∧
    (∀ (v : Option String) (b : Bool),
      parseArray v (some ⟨none, some b⟩) = parseArray v (some ⟨some ",", some b⟩)) ∧
    (∀ v : Option String, parseArray v none = parseArray v (some ⟨some ",", some false⟩)) :=
  ⟨rfl, fun _ => rfl, fun _ _ => rfl, fun _ _ => rfl, fun _ => rfl⟩

/-- C9: parseBoolean is total by its type (it returns a boolean and cannot
signal a failure); it returns true exactly when a present input lowercased
and trimmed equals one of the truthy tokens, and absent input yields
false. -/
theorem c9_parseBoolean_total_spec :
    parseBoolean none = false ∧
    ∀ s : String, (parseBoolean (some s) = true ↔
      (jsTrim (jsToLowerCase s) = "true" ∨ jsTrim (jsToLowerCase s) = "1")) := by
  refine ⟨rfl, fun s => ?_⟩
  simp [parseBoolean, List.contains]

/-- C10: with the parseNumber option resolved to false (unset or set to
false), parseArray never fails on a present input: every split element is a
present string, the fallback-less parseString call on it succeeds, and the
result is the full sequence of trimmed elements. -/
theorem c10_parseArray_string_mode_total (s : String) (opts : Option Options_ParseArray)
    (hp : (overrideParseArrayOptions opts).parseNumber = false) :
    parseArray (some s) opts =
      Except.ok ((jsSplit s (overrideParseArrayOptions opts).delimiter).map
        (fun e => ArrayElem.str (some (jsTrim e)))) := by
  have hmap := mapExcept_ok (fun arrayElem => parseString (some arrayElem) none)
    (fun arrayElem => some (jsTrim arrayElem)) (fun _ => rfl)
    (jsSplit s (overrideParseArrayOptions opts).delimiter)
  simp [parseArray, hp, hmap, Except.map, List.map_map, Function.comp]

/-- Closed instance of the C10 theorem: default options parse a
comma-separated list into trimmed strings without failing. -/
theorem c10_parseArray_string_mode_total_witness :
    parseArray (some "a, b ,c") none =
      Except.ok [ArrayElem.str (some "a"), ArrayElem.str (some "b"),
        ArrayElem.str (some "c")] := by
  rw [c10_parseArray_string_mode_total "a, b ,c" none rfl]
  rfl

example : jsTrim "  hi  " = "hi" := by decide
example : jsSplit "1,,3" "," = ["1", "", "3"] := by decide
example : strToNumber "42" = some (JsNum.finite 42) := by decide
example : strToNumber "" = some (JsNum.finite 0) := by decide
example : strToNumber "abc" = none := by decide
example : strToNumber "  3.5 " = some (JsNum.finite (mkRat 7 2)) := by decide
example : strToNumber "-1.5e2" = some (JsNum.finite (-150)) := by decide
example : strToNumber "0x10" = some (JsNum.finite 16) := by decide
example : strToNumber "Infinity" = some JsNum.posInf := by decide
example : strToNumber "-Infinity" = some JsNum.negInf := by decide
example : strToNumber "1e" = none := by decide
example : strToNumber "." = none := by decide
example : strToNumber "1." = some (JsNum.finite 1) := by decide
example : parseNumber (some "") none = Except.ok (some (JsNum.finite 0)) := by rfl
example : parseBoolean (some " TRUE ") = true := by decide
example : parseBoolean (some "false") = false := by decide
example : mandatoryVariables ["A", "B"] (fun v => v == "A") =
    Except.error "missing required env variables [B]" := by rfl
